import Mathlib

/-!
Verification of the Codex interactive-storytelling web application
(benc-uk/codex) against its natural-language specification.

The shallow embedding below models, from the source:
  - the string utilities of web/src/utils/strings.ts (newlineToBr, niceify);
  - the Alpine.js application state and its operations from
    web/src/codex.ts (init, gotoSection, takeOption, triggerEvent),
    with the browser environment (localStorage, URL hash) made explicit
    and the asynchronous confirmation dialog modelled as an event in an
    explicit event trace;
  - the story engine (story.ts / section.ts / option.ts), an external
    collaborator of codex.ts whose source is not part of this tree, as an
    abstract state machine with explicit visit, execute and trigger
    functions, following the interface the spec records for it;
  - the Scope Manager snapshot and restore operations and the Interpolator,
    modelled from the spec (their source is not part of this tree).
-/

/-- Script-engine values crossing the bridge: boolean, number, string, nil,
ordered list, mapping (spec section 6). Numbers are modelled as integers;
nothing proved here depends on numeric representation. -/
inductive Value where
  | bool : Bool → Value
  | num : Int → Value
  | str : String → Value
  | nil : Value
  | list : List Value → Value
  | map : List (String × Value) → Value

/-- The global story state exposed by the story engine to codex.ts, a
record of named values as in the Record returned by getState. -/
def StoryState : Type := List (String × Value)

-- ===================================================================
-- strings.ts
-- ===================================================================

/-- Character-list form of newlineToBr: replace every newline character
by the five characters of the br tag, as the global regex replace does. -/
def newlineToBrL : List Char → List Char
  | [] => []
  | c :: rest =>
      (if c = '\n' then ['<', 'b', 'r', '/', '>'] else [c]) ++ newlineToBrL rest

/-- newlineToBr from strings.ts: text.replace of every newline with a br tag. -/
def newlineToBr (s : String) : String := ⟨newlineToBrL s.data⟩

/-- niceify from strings.ts: split a section id on underscores, capitalise
the first letter of each word, lowercase the rest, join with spaces. -/
def niceify (id : String) : String :=
  String.intercalate (" ")
    ((id.splitOn ("_")).map (fun w => (w.take 1).toUpper ++ (w.drop 1).toLower))

theorem newlineToBrL_append (a b : List Char) :
    newlineToBrL (a ++ b) = newlineToBrL a ++ newlineToBrL b := by
  induction a with
  | nil => rfl
  | cons c rest ih =>
      by_cases h : c = '\n' <;> simp [newlineToBrL, h, ih]

theorem newlineToBrL_no_newline (l : List Char) : '\n' ∉ newlineToBrL l := by
  induction l with
  | nil => simp [newlineToBrL]
  | cons c rest ih =>
      by_cases h : c = '\n' <;> simp [newlineToBrL, h, ih]
      intro hc
      exact h hc.symm

theorem newlineToBrL_fixed (l : List Char) (h : '\n' ∉ l) :
    newlineToBrL l = l := by
  induction l with
  | nil => rfl
  | cons c rest ih =>
      simp only [List.mem_cons, not_or] at h
      simp [newlineToBrL, Ne.symm h.1, ih h.2]

theorem newlineToBrL_idem (l : List Char) :
    newlineToBrL (newlineToBrL l) = newlineToBrL l :=
  newlineToBrL_fixed _ (newlineToBrL_no_newline l)

theorem string_data_append (s t : String) : (s ++ t).data = s.data ++ t.data := by
  cases s
  cases t
  rfl

-- ===================================================================
-- JSON.stringify of the story state, as used when the Alpine watcher
-- writes the state to localStorage in codex.ts
-- ===================================================================

mutual

/-- JSON serialisation of a single value, modelling JSON.stringify applied
to the state record the story engine hands back. -/
def stringifyJ : Value → String
  | Value.bool true => "true"
  | Value.bool false => "false"
  | Value.num n => toString n
  | Value.str s => "\x22" ++ s ++ "\x22"
  | Value.nil => "null"
  | Value.list xs => "[" ++ stringifyList xs ++ "]"
  | Value.map m => "\x7b" ++ stringifyMap m ++ "\x7d"

/-- Comma-separated serialisation of a JSON array body. -/
def stringifyList : List Value → String
  | [] => ""
  | [x] => stringifyJ x
  | x :: y :: xs => stringifyJ x ++ "," ++ stringifyList (y :: xs)

/-- Comma-separated serialisation of a JSON object body. -/
def stringifyMap : List (String × Value) → String
  | [] => ""
  | [(k, v)] => "\x22" ++ k ++ "\x22:" ++ stringifyJ v
  | (k, v) :: p :: xs => "\x22" ++ k ++ "\x22:" ++ stringifyJ v ++ "," ++ stringifyMap (p :: xs)

end

/-- JSON.stringify of the whole state record written to the codex_state key. -/
def stringifyState (st : StoryState) : String := stringifyJ (Value.map st)

-- ===================================================================
-- The story engine as seen from codex.ts (story.ts / section.ts /
-- option.ts are external collaborators of the file under analysis;
-- their observable interface is modelled abstractly here)
-- ===================================================================

/-- A story section as codex.ts reads it: id, text (already interpolated
by the engine) and the ordered option ids of its option map. -/
structure Section where
  id : String
  text : String
  options : List String
deriving DecidableEq

/-- The story object of story.ts as observed by codex.ts. visitFn models
the combined effect of section.visit() on the engine state: it returns the
engine state after the call together with true when the call ran to
completion, and the partially mutated state together with false when the
call raised a script fault partway. triggerFn models story.trigger. -/
structure Story where
  title : String
  sections : List (String × Section)
  state : StoryState
  visitFn : String → StoryState → StoryState × Bool
  triggerFn : String → List String → StoryState → StoryState × String

/-- story.getSection: look the id up in the section map, undefined when
absent. -/
def getSection (s : Story) (id : String) : Option Section :=
  (s.sections.find? (fun p => p.1 == id)).map (fun p => p.2)

-- ===================================================================
-- Browser environment and Alpine application state of codex.ts
-- ===================================================================

/-- The browser facilities codex.ts touches: the codex_state localStorage
entry, the URL hash (without the hash mark), and whether a full page
navigation (window.location.href assignment) was performed. -/
structure Browser where
  storedState : Option String
  hash : String
  reloaded : Bool
deriving DecidableEq

/-- The displayed section object assigned by gotoSection. -/
structure SectionView where
  id : String
  title : String
  text : String
  options : List String
deriving DecidableEq

/-- The Alpine appState fields of codex.ts that the modelled operations
read or write. -/
structure App where
  title : String
  sectionView : SectionView
  state : StoryState
  loaded : Bool
  notifyMsg : String
  confirmMsg : String

/-- Events observable at the codex.ts level, in the order they happen:
the option run-code executing inside option.execute(), the confirmation
dialog being shown and acknowledged (the await of this.confirm returning),
a gotoSection call, and the notification dialog being shown. -/
inductive Ev where
  | execOption : Ev
  | confirmAwait : String → Ev
  | navigate : String → Ev
  | notifyEv : String → Ev
deriving DecidableEq

/-- x occurs somewhere in the trace. -/
def occurs (x : Ev) : List Ev → Bool
  | [] => false
  | e :: rest => if e = x then true else occurs x rest

/-- x occurs strictly before some later occurrence of y in the trace. -/
def precedes (x y : Ev) : List Ev → Bool
  | [] => false
  | e :: rest => if e = x then occurs y rest else if e = y then false else precedes x y rest

/-- JavaScript truthiness of an optional string, as tested by the if
statements of takeOption: undefined and the empty string are falsy. -/
def truthyS : Option String → Bool
  | none => false
  | some s => !(s == "")

-- ===================================================================
-- gotoSection (codex.ts lines 84-109)
-- ===================================================================

/-- Everything gotoSection leaves behind, plus two observation fields:
lookupCalled records the id story.getSection was called with (none when it
was never called), reportedMissing records a console.error about a missing
section, and faulted records an exception escaping the call. -/
structure GotoResult where
  app : App
  story : Story
  browser : Browser
  lookupCalled : Option String
  reportedMissing : Option String
  faulted : Bool

/-- gotoSection from codex.ts. The restart id clears the saved state and
assigns window.location.href without the hash, reloading the page, before
any section lookup. An unknown id is reported and the function returns.
Otherwise section.visit() runs; only after it completes does the code
assign this.state (whose Alpine watcher serialises the new state into
localStorage), build the displayed section object, and replace the URL
hash. A visit fault escapes before any of those assignments. -/
def gotoSection (story : Story) (app : App) (br : Browser) (sectionId : String) :
    GotoResult :=
  if sectionId = "restart" then
    { app := app, story := story,
      browser := { storedState := none, hash := "", reloaded := true },
      lookupCalled := none, reportedMissing := none, faulted := false }
  else
    match getSection story sectionId with
    | none =>
        { app := app, story := story, browser := br,
          lookupCalled := some sectionId, reportedMissing := some sectionId,
          faulted := false }
    | some sec =>
        let vr := story.visitFn sectionId story.state
        let story' : Story := { story with state := vr.1 }
        if vr.2 then
          let sv : SectionView :=
            { id := sec.id
              title := niceify sec.id
              text := newlineToBr sec.text
              options := sec.options }
          { app := { app with state := vr.1, sectionView := sv }
            story := story'
            browser := { br with storedState := some (stringifyState vr.1)
                                 hash := sectionId }
            lookupCalled := some sectionId
            reportedMissing := none
            faulted := false }
        else
          { app := app, story := story', browser := br,
            lookupCalled := some sectionId, reportedMissing := none, faulted := true }

-- ===================================================================
-- init (codex.ts lines 46-66): anchor handling and state restore
-- ===================================================================

/-- What the state-restoration part of init leaves behind. -/
structure InitResult where
  browser : Browser
  startSectionId : String
  stateRestored : Bool
  story : Story

/-- The anchor and saved-state handling of init in codex.ts. The start
section id defaults to start and is replaced by a non-empty URL anchor.
When it is start the saved blob is removed; otherwise a present blob is
parsed (JSON.parse modelled by the parse argument, none for a parse
exception) and a successful parse is passed to story.setState, while a
parse failure is caught and logged, leaving the default state. -/
def initModel (story : Story) (br : Browser) (parse : String → Option StoryState) :
    InitResult :=
  let startSectionId := if br.hash = "" then "start" else br.hash
  if startSectionId = "start" then
    { browser := { br with storedState := none },
      startSectionId := startSectionId, stateRestored := false, story := story }
  else
    match br.storedState with
    | none =>
        { browser := br, startSectionId := startSectionId,
          stateRestored := false, story := story }
    | some blob =>
        match parse blob with
        | some st =>
            { browser := br, startSectionId := startSectionId,
              stateRestored := true, story := { story with state := st } }
        | none =>
            { browser := br, startSectionId := startSectionId,
              stateRestored := false, story := story }

-- ===================================================================
-- takeOption (codex.ts lines 114-128)
-- ===================================================================

/-- The Result object of option.execute() as read by takeOption. -/
structure ExecResult where
  confirmMsg : Option String
  nextSectionId : Option String
  notifyMsg : Option String

/-- An option as codex.ts consumes it: execute() mutates the engine state
and yields the Result. -/
structure StoryOption where
  execute : StoryState → StoryState × ExecResult

/-- What takeOption leaves behind, with the observable event trace. -/
structure TakeResult where
  app : App
  story : Story
  browser : Browser
  trace : List Ev
  faulted : Bool

/-- takeOption from codex.ts. option.execute() runs first; then, when the
Result carries a truthy confirmMsg, this.confirm is awaited (its boolean
answer is not inspected); then a truthy nextSectionId leads to gotoSection,
and a truthy notifyMsg to the notification dialog. A fault escaping
gotoSection propagates, skipping the notification. -/
def takeOption (story : Story) (app : App) (br : Browser) (opt : StoryOption) :
    TakeResult :=
  let er := opt.execute story.state
  let result := er.2
  let story1 : Story := { story with state := er.1 }
  let cm := result.confirmMsg.getD ("")
  let app1 :=
    if truthyS result.confirmMsg then { app with confirmMsg := newlineToBr cm } else app
  let ev12 : List Ev :=
    Ev.execOption :: (if truthyS result.confirmMsg then [Ev.confirmAwait cm] else [])
  if truthyS result.nextSectionId then
    let nid := result.nextSectionId.getD ("")
    let g := gotoSection story1 app1 br nid
    if g.faulted then
      { app := g.app, story := g.story, browser := g.browser,
        trace := ev12 ++ [Ev.navigate nid], faulted := true }
    else
      if truthyS result.notifyMsg then
        let nm := result.notifyMsg.getD ("")
        { app := { g.app with notifyMsg := newlineToBr nm }, story := g.story,
          browser := g.browser,
          trace := ev12 ++ [Ev.navigate nid, Ev.notifyEv nm], faulted := false }
      else
        { app := g.app, story := g.story, browser := g.browser,
          trace := ev12 ++ [Ev.navigate nid], faulted := false }
  else
    if truthyS result.notifyMsg then
      let nm := result.notifyMsg.getD ("")
      { app := { app1 with notifyMsg := newlineToBr nm }, story := story1,
        browser := br, trace := ev12 ++ [Ev.notifyEv nm], faulted := false }
    else
      { app := app1, story := story1, browser := br, trace := ev12, faulted := false }

-- ===================================================================
-- triggerEvent (codex.ts lines 133-143)
-- ===================================================================

/-- What triggerEvent leaves behind; handlerRan records whether
story.trigger was invoked. -/
structure TriggerResult where
  app : App
  story : Story
  browser : Browser
  handlerRan : Bool

/-- triggerEvent from codex.ts. The confirmation dialog is shown and
awaited first; a negative answer returns immediately. On a positive
answer story.trigger runs, this.state is reassigned (persisting the new
state through the Alpine watcher) and the returned message is shown. -/
def triggerEvent (story : Story) (app : App) (br : Browser)
    (msg eventId : String) (args : List String) (answer : Bool) : TriggerResult :=
  let app1 := { app with confirmMsg := newlineToBr (msg ++ "\n\nAre you sure?") }
  if answer then
    let tr := story.triggerFn eventId args story.state
    { app := { app1 with state := tr.1, notifyMsg := newlineToBr tr.2 },
      story := { story with state := tr.1 },
      browser := { br with storedState := some (stringifyState tr.1) },
      handlerRan := true }
  else
    { app := app1, story := story, browser := br, handlerRan := false }

-- ===================================================================
-- Scope Manager snapshot / restore (spec sections 4.1 and 6; the
-- implementing source file is not part of this tree)
-- ===================================================================

/-- The three variable tiers owned by the Scope Manager. -/
structure Scopes where
  globalVars : List (String × Value)
  sectionVars : List (String × List (String × Value))
  ephemeralVars : List (String × Value)

/-- Modelled from the spec: snapshotState of the Scope Manager (story.ts,
not in this tree) produces a single serialised mapping containing all
global-tier variables plus a nested per-section mapping of section-tier
variables; the ephemeral tier is never included. -/
def snapshotState (s : Scopes) : Value :=
  Value.map
    [("globals", Value.map s.globalVars),
     ("sections", Value.map (s.sectionVars.map (fun p => (p.1, Value.map p.2))))]

/-- Decode the nested per-section mapping back into the section tier. -/
def decodeSectionTier : List (String × Value) → List (String × List (String × Value))
  | [] => []
  | (id, Value.map vars) :: rest => (id, vars) :: decodeSectionTier rest
  | (id, _) :: rest => (id, []) :: decodeSectionTier rest

/-- Modelled from the spec: restoreState of the Scope Manager (story.ts,
not in this tree) fully replaces global-tier and all section-tier values
from the blob and leaves the ephemeral tier empty. A blob not of the
snapshot shape restores empty tiers. -/
def restoreState (blob : Value) : Scopes → Scopes := fun _ =>
  match blob with
  | Value.map [("globals", Value.map g), ("sections", Value.map secs)] =>
      { globalVars := g, sectionVars := decodeSectionTier secs, ephemeralVars := [] }
  | _ => { globalVars := [], sectionVars := [], ephemeralVars := [] }

theorem decodeSectionTier_encode (l : List (String × List (String × Value))) :
    decodeSectionTier (l.map (fun p => (p.1, Value.map p.2))) = l := by
  induction l with
  | nil => rfl
  | cons p rest ih => cases p; simp [decodeSectionTier, ih]

-- ===================================================================
-- Interpolator (spec section 4.4; the implementing source file is not
-- in this tree)
-- ===================================================================

/-- Modelled from the spec: the Script Engine stringification of a result
value in the Lua tostring style; tables print as the word table. -/
def stringifyValue : Value → String
  | Value.bool true => "true"
  | Value.bool false => "false"
  | Value.num n => toString n
  | Value.str s => s
  | Value.nil => "nil"
  | Value.list _ => "table"
  | Value.map _ => "table"

/-- Modelled from the spec: substituting one placeholder. A successful
evaluation substitutes the stringified result; a script fault is caught
and substituted with an explicit diagnostic marker in place. -/
def evalPlaceholder (ev : String → Except String Value) (e : String) : String :=
  match ev e with
  | Except.ok v => stringifyValue v
  | Except.error _ => "[script fault: " ++ e ++ "]"

/-- Modelled from the spec: the Interpolator scan over the template, in a
character list form. Outside a placeholder an opening brace enters
placeholder mode; inside one, characters accumulate until the closing
brace, whereupon the evaluated substitution is emitted. An unterminated
placeholder is emitted literally. -/
def renderF (ev : String → Except String Value) : List Char → Option (List Char) → List Char
  | [], none => []
  | [], some buf => '\x7b' :: buf
  | c :: rest, none =>
      if c = '\x7b' then renderF ev rest (some [])
      else c :: renderF ev rest none
  | c :: rest, some buf =>
      if c = '\x7d' then (evalPlaceholder ev ⟨buf⟩).data ++ renderF ev rest none
      else renderF ev rest (some (buf ++ [c]))

/-- Modelled from the spec: render a text template, evaluating each
single-brace placeholder via the Script Engine. -/
def render (ev : String → Except String Value) (t : String) : String :=
  ⟨renderF ev t.data none⟩

/-- Split a character list on plus signs. -/
def splitPlus : List Char → List (List Char)
  | [] => [[]]
  | c :: rest =>
      if c = '+' then [] :: splitPlus rest
      else
        match splitPlus rest with
        | [] => [[c]]
        | g :: gs => (c :: g) :: gs

/-- Parse a non-empty all-digit character list as a number. -/
def parseNatGo : List Char → Nat → Option Nat
  | [], acc => some acc
  | c :: rest, acc =>
      if c.isDigit then parseNatGo rest (acc * 10 + (c.toNat - '0'.toNat))
      else none

/-- Parse a non-empty digit string, none otherwise. -/
def parseNatL : List Char → Option Nat
  | [] => none
  | c :: rest => parseNatGo (c :: rest) 0

/-- Modelled from the spec: a concrete Script Engine instance evaluating
sum-of-literals expressions, enough to exercise the interpolation
contract; every other expression raises a script fault. -/
def evArith (e : String) : Except String Value :=
  match (splitPlus e.data).mapM parseNatL with
  | some ns => Except.ok (Value.num (Int.ofNat (ns.foldl (fun a b => a + b) 0)))
  | none => Except.error ("script fault in " ++ e)

theorem renderF_literal (ev : String → Except String Value) (l rest : List Char)
    (h : '\x7b' ∉ l) :
    renderF ev (l ++ rest) none = l ++ renderF ev rest none := by
  induction l with
  | nil => rfl
  | cons c tl ih =>
      simp only [List.mem_cons, not_or] at h
      simp [renderF, Ne.symm h.1, ih h.2]

theorem renderF_placeholder (ev : String → Except String Value) (e : List Char)
    (buf rest : List Char) (h : '\x7d' ∉ e) :
    renderF ev (e ++ '\x7d' :: rest) (some buf) =
      (evalPlaceholder ev ⟨buf ++ e⟩).data ++ renderF ev rest none := by
  induction e generalizing buf with
  | nil => simp [renderF]
  | cons c tl ih =>
      simp only [List.mem_cons, not_or] at h
      simp only [List.cons_append, renderF, if_neg (Ne.symm h.1), List.append_eq]
      rw [ih _ h.2]
      simp

theorem string_ext_data (s t : String) (h : s.data = t.data) : s = t := by
  cases s
  cases t
  exact congrArg String.mk h

-- ===================================================================
-- Concrete instances used by witnesses and counterexamples
-- ===================================================================

/-- A small concrete engine state. -/
def demoState : StoryState := [("gold", Value.num 10)]

/-- The entry section of the demo story. -/
def startSection : Section :=
  { id := "start", text := "You wake up.\nIt is dark.", options := ["look"] }

/-- A second section of the demo story. -/
def nextSection : Section :=
  { id := "next", text := "Onward.", options := [] }

/-- A concrete story whose visits complete normally. -/
def demoStory : Story :=
  { title := "Demo"
    sections := [("start", startSection), ("next", nextSection)]
    state := demoState
    visitFn := fun _ st => (st, true)
    triggerFn := fun _ _ st => (st, "done") }

/-- The Alpine app state before any navigation. -/
def demoApp : App :=
  { title := "Demo"
    sectionView := { id := "", title := "", text := "", options := [] }
    state := []
    loaded := false
    notifyMsg := ""
    confirmMsg := "" }

/-- A browser with a stored blob and the entry anchor. -/
def demoBr : Browser :=
  { storedState := some ("old"), hash := "start", reloaded := false }

/-- A browser with no URL anchor. -/
def demoBrNoAnchor : Browser :=
  { storedState := some ("old"), hash := "", reloaded := false }

/-- A JSON.parse model that always fails. -/
def demoParse : String → Option StoryState := fun _ => none

/-- An option whose Result carries a confirmation message, a navigation
target and a notification. -/
def confirmOpt : StoryOption :=
  { execute := fun st =>
      (st, { confirmMsg := some ("Proceed?")
             nextSectionId := some ("next")
             notifyMsg := some ("Taken") }) }

/-- An option whose Result carries no navigation target. -/
def noNavOpt : StoryOption :=
  { execute := fun st =>
      (st, { confirmMsg := none
             nextSectionId := none
             notifyMsg := some ("Nothing happens") }) }

-- ===================================================================
-- Claim theorems
-- ===================================================================

/-- Claim C2: navigating to the reserved target restart deletes the saved
state blob and, through the page reload it performs, re-enters the
canonical entry section (the follow-up init resolves the start id); the
orchestrator handles this before and instead of any section lookup, so
getSection is never called with the id restart. -/
theorem C2_restart_discards_state (story story2 : Story) (app : App) (br : Browser)
    (parse : String → Option StoryState) :
    (gotoSection story app br ("restart")).browser.storedState = none
    ∧ (gotoSection story app br ("restart")).browser.reloaded = true
    ∧ (gotoSection story app br ("restart")).lookupCalled = none
    ∧ (gotoSection story app br ("restart")).app = app
    ∧ (gotoSection story app br ("restart")).story = story
    ∧ (initModel story2 (gotoSection story app br ("restart")).browser parse).startSectionId
        = "start"
    ∧ (initModel story2 (gotoSection story app br ("restart")).browser parse).browser.storedState
        = none := by
  refine ⟨rfl, rfl, rfl, rfl, rfl, rfl, rfl⟩

/-- Claim C3: for a section id that is neither restart nor a known
section, gotoSection reports the missing section and returns without a
fault, leaving the displayed section, the story state and the URL hash
exactly as they were. -/
theorem C3_missing_section_frame (story : Story) (app : App) (br : Browser) (id : String)
    (h1 : id ≠ "restart") (h2 : getSection story id = none) :
    (gotoSection story app br id).app = app
    ∧ (gotoSection story app br id).story = story
    ∧ (gotoSection story app br id).browser = br
    ∧ (gotoSection story app br id).reportedMissing = some id
    ∧ (gotoSection story app br id).faulted = false := by
  simp [gotoSection, h1, h2]

/-- Witness for C3 at a concrete unknown id. -/
theorem C3_missing_section_frame_witness :
    (gotoSection demoStory demoApp demoBr ("nowhere")).app = demoApp
    ∧ (gotoSection demoStory demoApp demoBr ("nowhere")).story = demoStory
    ∧ (gotoSection demoStory demoApp demoBr ("nowhere")).browser = demoBr
    ∧ (gotoSection demoStory demoApp demoBr ("nowhere")).reportedMissing = some ("nowhere")
    ∧ (gotoSection demoStory demoApp demoBr ("nowhere")).faulted = false :=
  C3_missing_section_frame demoStory demoApp demoBr ("nowhere") (by decide) (by decide)

/-- Claim C4: on navigation to a known section, the persisted snapshot is
written only after visit() has fully completed: a completing visit
persists the serialisation of the whole post-visit state, while a visit
fault leaves the previously persisted blob (and the URL hash) untouched
even though the engine state holds the incomplete mutation. -/
theorem C4_snapshot_after_visit (story : Story) (app : App) (br : Browser)
    (id : String) (sec : Section)
    (h1 : id ≠ "restart") (h2 : getSection story id = some sec) :
    ((story.visitFn id story.state).2 = true →
      (gotoSection story app br id).browser.storedState
          = some (stringifyState (story.visitFn id story.state).1)
      ∧ (gotoSection story app br id).story.state = (story.visitFn id story.state).1
      ∧ (gotoSection story app br id).faulted = false)
    ∧ ((story.visitFn id story.state).2 = false →
      (gotoSection story app br id).browser.storedState = br.storedState
      ∧ (gotoSection story app br id).browser.hash = br.hash
      ∧ (gotoSection story app br id).story.state = (story.visitFn id story.state).1
      ∧ (gotoSection story app br id).faulted = true) := by
  constructor <;> intro hv <;> simp [gotoSection, h1, h2, hv]

/-- Witness for C4 at the demo story's entry section. -/
theorem C4_snapshot_after_visit_witness :
    (gotoSection demoStory demoApp demoBr ("start")).browser.storedState
        = some (stringifyState (demoStory.visitFn ("start") demoStory.state).1)
    ∧ (gotoSection demoStory demoApp demoBr ("start")).story.state
        = (demoStory.visitFn ("start") demoStory.state).1
    ∧ (gotoSection demoStory demoApp demoBr ("start")).faulted = false :=
  (C4_snapshot_after_visit demoStory demoApp demoBr ("start") startSection
    (by decide) (by decide)).1 (by decide)

/-- Claim C9: triggerEvent runs the story's event handler only on an
affirmative confirmation answer; on decline it returns with no handler
run, no change to the story state, no notification and no persistence. -/
theorem C9_trigger_confirm_gate (story : Story) (app : App) (br : Browser)
    (msg eventId : String) (args : List String) (answer : Bool) :
    (triggerEvent story app br msg eventId args answer).handlerRan = answer
    ∧ (answer = false →
        (triggerEvent story app br msg eventId args answer).story = story
        ∧ (triggerEvent story app br msg eventId args answer).app.state = app.state
        ∧ (triggerEvent story app br msg eventId args answer).app.notifyMsg = app.notifyMsg
        ∧ (triggerEvent story app br msg eventId args answer).browser = br) := by
  cases answer <;> simp [triggerEvent]

/-- Witness for C9 at a declined confirmation. -/
theorem C9_trigger_confirm_gate_witness :
    (triggerEvent demoStory demoApp demoBr ("Drink it") ("drink") [] false).story = demoStory
    ∧ (triggerEvent demoStory demoApp demoBr ("Drink it") ("drink") [] false).app.state
        = demoApp.state
    ∧ (triggerEvent demoStory demoApp demoBr ("Drink it") ("drink") [] false).app.notifyMsg
        = demoApp.notifyMsg
    ∧ (triggerEvent demoStory demoApp demoBr ("Drink it") ("drink") [] false).browser = demoBr :=
  (C9_trigger_confirm_gate demoStory demoApp demoBr ("Drink it") ("drink") [] false).2 rfl

/-- Claim C10: newlineToBr distributes over concatenation, turns the
newline string into the br tag and leaves newline-free characters alone
(together: it replaces every newline with a br tag), its output contains
no newline, and it is idempotent. -/
theorem C10_newlineToBr_props (s t : String) (c : Char) :
    newlineToBr (s ++ t) = newlineToBr s ++ newlineToBr t
    ∧ newlineToBr ("\n") = "<br/>"
    ∧ (¬ c = '\n' → newlineToBr (String.singleton c) = String.singleton c)
    ∧ '\n' ∉ (newlineToBr s).data
    ∧ newlineToBr (newlineToBr s) = newlineToBr s := by
  refine ⟨?_, by decide, ?_, ?_, ?_⟩
  · apply string_ext_data
    show newlineToBrL (s ++ t).data = (newlineToBr s ++ newlineToBr t).data
    rw [string_data_append, string_data_append, newlineToBrL_append]
    rfl
  · intro h
    apply string_ext_data
    show newlineToBrL [c] = [c]
    simp [newlineToBrL, h]
  · exact newlineToBrL_no_newline s.data
  · apply string_ext_data
    exact newlineToBrL_idem s.data

/-- Witness for C10: a newline-free character is left alone. -/
theorem C10_newlineToBr_props_witness :
    newlineToBr (String.singleton 'x') = String.singleton 'x' :=
  (C10_newlineToBr_props ("a") ("b") 'x').2.2.1 (by decide)

/-- Claim C5: when the Result of option.execute() carries no truthy
next-section identifier, takeOption performs no navigation: the displayed
section object and the whole browser state (URL hash included) are
unchanged and no fault escapes. -/
theorem C5_no_goto_stays (story : Story) (app : App) (br : Browser) (opt : StoryOption)
    (h : truthyS (opt.execute story.state).2.nextSectionId = false) :
    (takeOption story app br opt).app.sectionView = app.sectionView
    ∧ (takeOption story app br opt).browser = br
    ∧ (takeOption story app br opt).faulted = false := by
  by_cases hc : truthyS (opt.execute story.state).2.confirmMsg = true
  all_goals by_cases hn : truthyS (opt.execute story.state).2.notifyMsg = true
  all_goals simp_all [takeOption]

/-- Witness for C5 at an option with no navigation target. -/
theorem C5_no_goto_stays_witness :
    (takeOption demoStory demoApp demoBr noNavOpt).app.sectionView = demoApp.sectionView
    ∧ (takeOption demoStory demoApp demoBr noNavOpt).browser = demoBr
    ∧ (takeOption demoStory demoApp demoBr noNavOpt).faulted = false :=
  C5_no_goto_stays demoStory demoApp demoBr noNavOpt (by decide)

/-- Claim C6: a snapshot taken after restoring a snapshot equals the
first snapshot for all supported value kinds; restore fully replaces the
global and section tiers and leaves the ephemeral tier empty; the
ephemeral tier never influences a snapshot. -/
theorem C6_snapshot_roundtrip (s t : Scopes) :
    snapshotState (restoreState (snapshotState s) t) = snapshotState s
    ∧ (restoreState (snapshotState s) t).ephemeralVars = []
    ∧ restoreState (snapshotState s) t =
        { globalVars := s.globalVars, sectionVars := s.sectionVars, ephemeralVars := [] }
    ∧ (∀ eph, snapshotState { s with ephemeralVars := eph } = snapshotState s) := by
  have hr : restoreState (snapshotState s) t =
      { globalVars := s.globalVars
        sectionVars := decodeSectionTier (s.sectionVars.map (fun p => (p.1, Value.map p.2)))
        ephemeralVars := [] } := rfl
  rw [hr, decodeSectionTier_encode]
  exact ⟨rfl, rfl, rfl, fun _ => rfl⟩

/-- Claim C7: the Interpolator substitutes a successfully evaluated
placeholder with its stringified result (so the 1+1 template renders as
2), substitutes a failing placeholder with an explicit in-place
diagnostic marker, and in both cases the rest of the template still
renders. -/
theorem C7_render_placeholders (ev : String → Except String Value) (pre e post : String)
    (hpre : '\x7b' ∉ pre.data) (he : '\x7d' ∉ e.data) :
    render ev (pre ++ "\x7b" ++ e ++ "\x7d" ++ post)
        = pre ++ evalPlaceholder ev e ++ render ev post
    ∧ (∀ v, ev e = Except.ok v → evalPlaceholder ev e = stringifyValue v)
    ∧ (∀ m, ev e = Except.error m →
        evalPlaceholder ev e = "[script fault: " ++ e ++ "]")
    ∧ render evArith ("\x7b1+1\x7d") = "2" := by
  refine ⟨?_, ?_, ?_, by decide⟩
  · have hdata : (pre ++ "\x7b" ++ e ++ "\x7d" ++ post).data
        = pre.data ++ '\x7b' :: (e.data ++ '\x7d' :: post.data) := by
      simp [string_data_append]
    apply string_ext_data
    show renderF ev (pre ++ "\x7b" ++ e ++ "\x7d" ++ post).data none = _
    rw [hdata, renderF_literal ev _ _ hpre]
    have hstep : renderF ev ('\x7b' :: (e.data ++ '\x7d' :: post.data)) none
        = renderF ev (e.data ++ '\x7d' :: post.data) (some []) := by
      simp [renderF]
    rw [hstep, renderF_placeholder ev _ _ _ he]
    rw [string_data_append, string_data_append]
    simp [render]
  · intro v hv
    simp [evalPlaceholder, hv]
  · intro m hm
    simp [evalPlaceholder, hm]

/-- Witness for C7: a faulting placeholder renders in place between a
literal prefix and a still-rendered remainder. -/
theorem C7_render_placeholders_witness :
    render evArith ("ab" ++ "\x7b" ++ "x+" ++ "\x7d" ++ "cd\x7b2+3\x7d")
        = "ab" ++ evalPlaceholder evArith ("x+") ++ render evArith ("cd\x7b2+3\x7d") :=
  (C7_render_placeholders evArith ("ab") ("x+") ("cd\x7b2+3\x7d")
    (by decide) (by decide)).1

/-- Claim C8: at startup, saved state is restored only when the URL
anchor is present and differs from start; with no anchor or the start
anchor the blob is deleted and the default state stands; and a blob that
fails to parse is caught and ignored, startup proceeding on the default
state. -/
theorem C8_init_restore_policy (story : Story) (br : Browser)
    (parse : String → Option StoryState) :
    ((br.hash = "" ∨ br.hash = "start") →
        (initModel story br parse).browser.storedState = none
        ∧ (initModel story br parse).story = story
        ∧ (initModel story br parse).stateRestored = false
        ∧ (initModel story br parse).startSectionId = "start")
    ∧ ((initModel story br parse).stateRestored = true →
        ¬ br.hash = "" ∧ ¬ br.hash = "start"
        ∧ ∃ blob st, br.storedState = some blob ∧ parse blob = some st
            ∧ (initModel story br parse).story = { story with state := st })
    ∧ (∀ blob, ¬ br.hash = "" → ¬ br.hash = "start" → br.storedState = some blob →
        parse blob = none →
        (initModel story br parse).story = story
        ∧ (initModel story br parse).stateRestored = false
        ∧ (initModel story br parse).startSectionId = br.hash) := by
  refine ⟨?_, ?_, ?_⟩
  · rintro (h | h) <;> simp [initModel, h]
  · intro hr
    by_cases h0 : br.hash = ""
    · simp [initModel, h0] at hr
    · by_cases h1 : br.hash = "start"
      · simp [initModel, h0, h1] at hr
      · cases hbs : br.storedState with
        | none => simp [initModel, h0, h1, hbs] at hr
        | some blob =>
            cases hp : parse blob with
            | none => simp [initModel, h0, h1, hbs, hp] at hr
            | some st =>
                exact ⟨h0, h1, blob, st, rfl, hp, by simp [initModel, h0, h1, hbs, hp]⟩
  · intro blob h0 h1 hbs hp
    simp [initModel, h0, h1, hbs, hp]

/-- Claim C1 as stated is false: at this concrete option, whose Result
carries a confirmation message, the run-code side effects of
option.execute() happen before the confirmation is acknowledged — the
acknowledgment never precedes the execute event in the observable trace. -/
theorem C1_counterexample :
    (takeOption demoStory demoApp demoBr confirmOpt).trace
        = [Ev.execOption, Ev.confirmAwait ("Proceed?"), Ev.navigate ("next"),
           Ev.notifyEv ("Taken")]
    ∧ precedes (Ev.confirmAwait ("Proceed?")) Ev.execOption
        ((takeOption demoStory demoApp demoBr confirmOpt).trace) = false := by
  constructor <;> decide

/-- Claim C1 (amended): when the Result carries a confirmation message,
the navigation and the notification take effect only after the
confirmation has been acknowledged, but the run-code side effects of
option.execute() have already applied before the confirmation is shown:
in the trace the execute event precedes the acknowledgment, and the
acknowledgment precedes any navigation and any notification. -/
theorem C1_confirm_ordering (story : Story) (app : App) (br : Browser) (opt : StoryOption)
    (hc : truthyS (opt.execute story.state).2.confirmMsg = true) :
    precedes Ev.execOption
        (Ev.confirmAwait ((opt.execute story.state).2.confirmMsg.getD ("")))
        ((takeOption story app br opt).trace) = true
    ∧ (truthyS (opt.execute story.state).2.nextSectionId = true →
        precedes (Ev.confirmAwait ((opt.execute story.state).2.confirmMsg.getD ("")))
          (Ev.navigate ((opt.execute story.state).2.nextSectionId.getD ("")))
          ((takeOption story app br opt).trace) = true)
    ∧ ((takeOption story app br opt).faulted = false →
        truthyS (opt.execute story.state).2.notifyMsg = true →
        precedes (Ev.confirmAwait ((opt.execute story.state).2.confirmMsg.getD ("")))
          (Ev.notifyEv ((opt.execute story.state).2.notifyMsg.getD ("")))
          ((takeOption story app br opt).trace) = true) := by
  obtain ⟨st2, cmsg, nid, nmsg, h⟩ :
      ∃ st2 cmsg nid nmsg, opt.execute story.state = (st2, ⟨cmsg, nid, nmsg⟩) :=
    ⟨(opt.execute story.state).1, (opt.execute story.state).2.confirmMsg,
     (opt.execute story.state).2.nextSectionId, (opt.execute story.state).2.notifyMsg, rfl⟩
  rw [h] at hc
  simp only at hc
  rw [h]
  simp only [takeOption, h, hc]
  by_cases hn : truthyS nid = true
  · simp only [hn, if_true]
    split
    · simp [precedes, occurs]
    · by_cases hm : truthyS nmsg = true
      · simp [hm, precedes, occurs]
      · simp [hm, precedes, occurs]
  · simp only [hn]
    by_cases hm : truthyS nmsg = true
    · simp [hm, precedes, occurs]
    · simp [hm, precedes, occurs]

/-- Witness for the amended C1 at a concrete option carrying a
confirmation message, a navigation target and a notification. -/
theorem C1_confirm_ordering_witness :
    precedes Ev.execOption (Ev.confirmAwait ("Proceed?"))
        ((takeOption demoStory demoApp demoBr confirmOpt).trace) = true
    ∧ precedes (Ev.confirmAwait ("Proceed?")) (Ev.navigate ("next"))
        ((takeOption demoStory demoApp demoBr confirmOpt).trace) = true
    ∧ precedes (Ev.confirmAwait ("Proceed?")) (Ev.notifyEv ("Taken"))
        ((takeOption demoStory demoApp demoBr confirmOpt).trace) = true :=
  ⟨(C1_confirm_ordering demoStory demoApp demoBr confirmOpt (by decide)).1,
   (C1_confirm_ordering demoStory demoApp demoBr confirmOpt (by decide)).2.1 (by decide),
   (C1_confirm_ordering demoStory demoApp demoBr confirmOpt (by decide)).2.2
     (by decide) (by decide)⟩

/-- Witness for C8 with no URL anchor: the blob is deleted and the
default state stands. -/
theorem C8_init_restore_policy_witness :
    (initModel demoStory demoBrNoAnchor demoParse).browser.storedState = none
    ∧ (initModel demoStory demoBrNoAnchor demoParse).story = demoStory
    ∧ (initModel demoStory demoBrNoAnchor demoParse).stateRestored = false
    ∧ (initModel demoStory demoBrNoAnchor demoParse).startSectionId = "start" :=
  (C8_init_restore_policy demoStory demoBrNoAnchor demoParse).1 (Or.inl rfl)
